import Mathlib

/-!
Verification development for the weather/traffic data pipeline
(synthetic data generators, Phase 2 cleaning, Phase 4 merging).

The Python sources are shallowly embedded:
cell values of a pandas column are modelled by the inductive type Val
(null, numeric, string, timestamp), a dataframe row is a structure with
one Val per column, and a dataframe is a list of rows.  Column-level
bookkeeping of the merge step is modelled separately as functions on
lists of column names.  The process-global random streams of the Python
code (random, numpy.random) are modelled as explicitly passed values:
a seeded linear congruential stream for the generators, and an indexed
pick function for the cleaner's random category resampling.
-/

/-- Calendar timestamp with minute precision, matching the precision the
generators emit (strftime formats without seconds, except one with :00). -/
structure Time where
  year : Nat
  month : Nat
  day : Nat
  hour : Nat
  minute : Nat
deriving DecidableEq

/-- Cell value of a dataframe column: missing (None/NaN/NaT), numeric
(int and float are both modelled as rationals), string, or timestamp. -/
inductive Val where
  | null : Val
  | num (q : ℚ) : Val
  | str (s : String) : Val
  | time (t : Time) : Val
deriving DecidableEq

/-- Pandas notna: everything except the missing sentinel. -/
def Val.notna : Val → Bool
  | .null => false
  | _ => true

/-- Numeric value of a decimal digit character. -/
def digitVal (c : Char) : Nat := c.toNat - 48

/-- Natural number denoted by a list of decimal digit characters. -/
def natOfDigits (cs : List Char) : Nat := cs.foldl (fun a c => a * 10 + digitVal c) 0

/-- Decimal-notation reading of a digit string with optional fractional
part, as accepted by pandas to_numeric for the strings this pipeline can
contain (the generators only emit plain decimal numerals). -/
def parseNumCore (cs : List Char) : Option ℚ :=
  let ip := cs.takeWhile Char.isDigit
  let rest := cs.drop ip.length
  if ip.isEmpty then none else
  match rest with
  | [] => some (natOfDigits ip : ℚ)
  | '.' :: fp =>
    if fp.isEmpty || !(fp.all Char.isDigit) then none
    else some ((natOfDigits ip : ℚ) + (natOfDigits fp : ℚ) / ((10 : ℚ) ^ fp.length))
  | _ => none

/-- Numeric reading of a string, with an optional leading minus sign. -/
def parseNum (s : String) : Option ℚ :=
  match s.toList with
  | '-' :: cs => (parseNumCore cs).map (fun q => -q)
  | cs => parseNumCore cs

/-- Leap year rule of the Gregorian calendar. -/
def isLeap (y : Nat) : Bool := (y % 4 == 0 && y % 100 != 0) || y % 400 == 0

/-- Number of days in a month. -/
def daysInMonth (y m : Nat) : Nat :=
  if m = 2 then (if isLeap y then 29 else 28)
  else if m = 4 ∨ m = 6 ∨ m = 9 ∨ m = 11 then 30
  else 31

/-- Timestamp reading for the standard format the generators emit,
YYYY-MM-DD HH:MM, with calendar validation as pandas to_datetime applies
(so the generators' invalid sentinel 2099-13-40 25:61 is rejected).
Pandas also understands the alternative encodings the generators can
emit; the claims under verification are insensitive to exactly which
extra formats succeed, so only the standard one is modelled as parsable
and every other string coerces to missing. -/
def parseTS (s : String) : Option Time :=
  match s.toList with
  | [y1, y2, y3, y4, c1, m1, m2, c2, d1, d2, c3, h1, h2, c4, n1, n2] =>
    if y1.isDigit && y2.isDigit && y3.isDigit && y4.isDigit &&
       m1.isDigit && m2.isDigit && d1.isDigit && d2.isDigit &&
       h1.isDigit && h2.isDigit && n1.isDigit && n2.isDigit &&
       c1 == '-' && c2 == '-' && c3 == ' ' && c4 == ':' then
      let y := natOfDigits [y1, y2, y3, y4]
      let m := natOfDigits [m1, m2]
      let d := natOfDigits [d1, d2]
      let h := natOfDigits [h1, h2]
      let n := natOfDigits [n1, n2]
      if 1 ≤ m && m ≤ 12 && 1 ≤ d && d ≤ daysInMonth y m && h ≤ 23 && n ≤ 59 then
        some ⟨y, m, d, h, n⟩
      else none
    else none
  | _ => none

/-- Embedding of pd.to_datetime(column, errors=coerce) on one cell.
A value that is already a timestamp is left unchanged, a string is read
with parseTS or coerced to missing, and missing stays missing.  A raw
date_time column holds only strings or missing values, so the numeric
case (which real pandas would interpret as an epoch offset) is also
coerced to missing. -/
def parseDateVal : Val → Val
  | .time t => .time t
  | .str s => match parseTS s with
    | some t => .time t
    | none => .null
  | _ => .null

/-- Embedding of pd.to_numeric(column, errors=coerce) on one cell. -/
def toNumV : Val → Val
  | .num q => .num q
  | .str s => match parseNum s with
    | some q => .num q
    | none => .null
  | _ => .null

/-- Embedding of Series.clip(lo, hi) on one cell: numeric values are
clamped into the closed interval, missing values pass through. -/
def clipV (lo hi : ℚ) : Val → Val
  | .num q => .num (max lo (min hi q))
  | v => v

/-- Composition to_numeric then clip, the per-numeric-column repair the
cleaner applies. -/
def fixNum (lo hi : ℚ) (v : Val) : Val := clipV lo hi (toNumV v)

/-- Valid weather condition labels of the cleaner. -/
def validConditions : List String := ["Clear", "Rain", "Fog", "Storm", "Snow"]

/-- Valid season labels of the cleaner. -/
def validSeasons : List String := ["Winter", "Spring", "Summer", "Autumn"]

/-- Valid area labels of the cleaner (note: a strict subset of the
generator's fifteen-district list). -/
def validAreas : List String :=
  ["Camden", "Chelsea", "Islington", "Southwark", "Kensington",
   "Westminster", "Greenwich", "Hackney", "Lambeth"]

/-- Valid congestion labels of the cleaner. -/
def validCongestion : List String := ["Low", "Medium", "High"]

/-- Valid road condition labels of the cleaner. -/
def validRoad : List String := ["Dry", "Wet", "Snowy", "Damaged"]

/-- Embedding of the cleaner's categorical repair
(x if x in valid else np.random.choice(valid)) on one cell.  The random
draw is modelled by the index k into the valid-label list, supplied by
the explicitly passed random source. -/
def cleanCat (valid : List String) (k : Nat) (v : Val) : Val :=
  match v with
  | .str s => if valid.contains s then v else .str (valid.getD (k % valid.length) "")
  | _ => .str (valid.getD (k % valid.length) "")

/-- Season derived from the month of a timestamp, as the cleaner's
get_season helper computes it. -/
def seasonOfMonth (m : Nat) : String :=
  if m ∈ [12, 1, 2] then "Winter"
  else if m ∈ [3, 4, 5] then "Spring"
  else if m ∈ [6, 7, 8] then "Summer"
  else "Autumn"

/-- Embedding of the cleaner's season backfill: keep a season that is
one of the four canonical labels, otherwise derive it from the already
cleaned timestamp; if that timestamp is missing the season stays
missing (get_season returns None on NaT). -/
def fixSeason (cleanedDate : Val) (v : Val) : Val :=
  match v with
  | .str s =>
    if validSeasons.contains s then v
    else match cleanedDate with
      | .time t => .str (seasonOfMonth t.month)
      | _ => .null
  | _ => match cleanedDate with
    | .time t => .str (seasonOfMonth t.month)
    | _ => .null

/-- Raw or cleaned weather row; column set of the weather CSV schema. -/
structure WRow where
  weather_id : Val
  date_time : Val
  city : Val
  season : Val
  temperature_c : Val
  humidity : Val
  rain_mm : Val
  wind_speed_kmh : Val
  visibility_m : Val
  weather_condition : Val
  air_pressure_hpa : Val
deriving DecidableEq

/-- Raw or cleaned traffic row; column set of the traffic CSV schema. -/
structure TRow where
  traffic_id : Val
  date_time : Val
  city : Val
  area : Val
  vehicle_count : Val
  avg_speed_kmh : Val
  accident_count : Val
  congestion_level : Val
  road_condition : Val
  visibility_m : Val
deriving DecidableEq

/-- Per-row weather repair, the row-wise reading of the column-wise
Phase 2 weather steps in source order: date_time coercion, numeric
coercion and clipping of the six measurement columns, weather condition
resampling, city forced to London, season backfill from the cleaned
date.  The random source pv indexes the resampling draw. -/
def cleanRowW (pv : Nat → Nat) (r : WRow) : WRow :=
  let d := parseDateVal r.date_time
  { weather_id := r.weather_id
    date_time := d
    city := .str "London"
    season := fixSeason d r.season
    temperature_c := fixNum (-10) 40 r.temperature_c
    humidity := fixNum 0 100 r.humidity
    rain_mm := fixNum 0 100 r.rain_mm
    wind_speed_kmh := fixNum 0 150 r.wind_speed_kmh
    visibility_m := fixNum 50 20000 r.visibility_m
    weather_condition := cleanCat validConditions (pv 0) r.weather_condition
    air_pressure_hpa := fixNum 950 1050 r.air_pressure_hpa }

/-- Per-row traffic repair, the row-wise reading of the column-wise
Phase 2 traffic steps: date_time coercion, area canonicalization,
numeric coercion and clipping of the four measurement columns,
congestion and road condition resampling, city forced to London. -/
def cleanRowT (pv : Nat → Nat) (r : TRow) : TRow :=
  { traffic_id := r.traffic_id
    date_time := parseDateVal r.date_time
    city := .str "London"
    area := cleanCat validAreas (pv 0) r.area
    vehicle_count := fixNum 0 10000 r.vehicle_count
    avg_speed_kmh := fixNum 0 120 r.avg_speed_kmh
    accident_count := fixNum 0 20 r.accident_count
    congestion_level := cleanCat validCongestion (pv 1) r.congestion_level
    road_condition := cleanCat validRoad (pv 2) r.road_condition
    visibility_m := fixNum 50 10000 r.visibility_m }

/-- Accumulator loop of exact-row duplicate removal: keep the first
occurrence of each row, skipping rows already seen. -/
def dedupGo {α : Type} [DecidableEq α] (seen : List α) : List α → List α
  | [] => []
  | x :: xs => if x ∈ seen then dedupGo seen xs else x :: dedupGo (x :: seen) xs

/-- Exact-row duplicate removal keeping first occurrences, the
behaviour of DataFrame.drop_duplicates. -/
def dedupF {α : Type} [DecidableEq α] (l : List α) : List α := dedupGo [] l

/-- Indexed map applying the per-row repair, threading the row index
into the random source so each row draws its own replacements. -/
def cleanRowsW (pick : Nat → Nat → Nat) (i : Nat) : List WRow → List WRow
  | [] => []
  | r :: rs => cleanRowW (pick i) r :: cleanRowsW pick (i + 1) rs

/-- Indexed map applying the per-row traffic repair. -/
def cleanRowsT (pick : Nat → Nat → Nat) (i : Nat) : List TRow → List TRow
  | [] => []
  | r :: rs => cleanRowT (pick i) r :: cleanRowsT pick (i + 1) rs

/-- Critical-field condition of the weather dropna subset
(date_time, temperature_c). -/
def predW (r : WRow) : Bool := r.date_time.notna && r.temperature_c.notna

/-- Critical-field condition of the traffic dropna subset
(date_time, area, vehicle_count). -/
def predT (r : TRow) : Bool := r.date_time.notna && r.area.notna && r.vehicle_count.notna

/-- Phase 2 weather dataset cleaning: drop_duplicates on the raw rows,
per-row repair, then removal of rows missing a critical field. -/
def cleanWeather (pick : Nat → Nat → Nat) (rs : List WRow) : List WRow :=
  (cleanRowsW pick 0 (dedupF rs)).filter predW

/-- Phase 2 traffic dataset cleaning: drop_duplicates on the raw rows,
per-row repair, then removal of rows missing a critical field. -/
def cleanTraffic (pick : Nat → Nat → Nat) (rs : List TRow) : List TRow :=
  (cleanRowsT pick 0 (dedupF rs)).filter predT

/-- Critical-field condition of the traffic dropna subset with the area
conjunct removed; used to state that the area conjunct is unreachable. -/
def predTNoArea (r : TRow) : Bool := r.date_time.notna && r.vehicle_count.notna

/-- Traffic cleaning as cleanTraffic but with the area condition left
out of the final filter. -/
def cleanTrafficNoAreaCheck (pick : Nat → Nat → Nat) (rs : List TRow) : List TRow :=
  (cleanRowsT pick 0 (dedupF rs)).filter predTNoArea

/-- Hour bucket of a timestamp: Series.dt.floor on hour granularity
zeroes the minutes. -/
def floorHour (t : Time) : Time := { t with minute := 0 }

/-- Hour bucket of a cell as the merge step computes it on the cleaned
date_time column. -/
def hourFloorVal : Val → Val
  | .time t => .time (floorHour t)
  | _ => .null

/-- Join key of a weather row: (hour bucket, city), the left_on columns
of the Phase 4 merge. -/
def wkey (w : WRow) : Val × Val := (hourFloorVal w.date_time, w.city)

/-- Join key of a traffic row: (hour bucket, city), the right_on
columns of the Phase 4 merge. -/
def tkey (t : TRow) : Val × Val := (hourFloorVal t.date_time, t.city)

/-- Merged row over the final 16-column schema of Phase 4. -/
structure MRow where
  date_time : Val
  city : Val
  season : Val
  temperature_c : Val
  humidity : Val
  rain_mm : Val
  wind_speed_kmh : Val
  weather_condition : Val
  air_pressure_hpa : Val
  area : Val
  vehicle_count : Val
  avg_speed_kmh : Val
  accident_count : Val
  congestion_level : Val
  road_condition : Val
  visibility_m : Val
deriving DecidableEq

/-- Row combination of the Phase 4 merge after column resolution:
date_time, city and visibility_m come from the weather side, the
weather-only and traffic-only columns from their own sides. -/
def mkMerged (w : WRow) (t : TRow) : MRow :=
  { date_time := w.date_time
    city := w.city
    season := w.season
    temperature_c := w.temperature_c
    humidity := w.humidity
    rain_mm := w.rain_mm
    wind_speed_kmh := w.wind_speed_kmh
    weather_condition := w.weather_condition
    air_pressure_hpa := w.air_pressure_hpa
    area := t.area
    vehicle_count := t.vehicle_count
    avg_speed_kmh := t.avg_speed_kmh
    accident_count := t.accident_count
    congestion_level := t.congestion_level
    road_condition := t.road_condition
    visibility_m := w.visibility_m }

/-- Row-level inner equi-join of the Phase 4 merge: every pair of rows
sharing the (hour bucket, city) key yields one merged row. -/
def mergeRows : List WRow → List TRow → List MRow
  | [], _ => []
  | w :: ws, ts =>
    (ts.filter (fun t => tkey t = wkey w)).map (mkMerged w) ++ mergeRows ws ts

/-- Number of distinct join keys present in both cleaned inputs. -/
def commonKeyCount (ws : List WRow) (ts : List TRow) : Nat :=
  ((dedupF (ws.map wkey)).filter (fun k => k ∈ ts.map tkey)).length

/-- Column list of the cleaned weather artifact, the weather CSV schema
preserved by the cleaning steps. -/
def weatherCleanCols : List String :=
  ["weather_id", "date_time", "city", "season", "temperature_c", "humidity",
   "rain_mm", "wind_speed_kmh", "visibility_m", "weather_condition", "air_pressure_hpa"]

/-- Column list of the cleaned traffic artifact. -/
def trafficCleanCols : List String :=
  ["traffic_id", "date_time", "city", "area", "vehicle_count", "avg_speed_kmh",
   "accident_count", "congestion_level", "road_condition", "visibility_m"]

/-- Join key column names of the Phase 4 merge. -/
def mergeKeys : List String := ["hour", "city"]

/-- Column list pd.merge produces: key columns appear once at their
left position, non-key columns present on both sides get the _weather
and _traffic suffixes, all left columns precede the non-key right
columns. -/
def pandasMergeCols (left right : List String) : List String :=
  let collide := left.filter (fun c => right.contains c && !(mergeKeys.contains c))
  let leftS := left.map (fun c => if collide.contains c then c ++ "_weather" else c)
  let rightS := (right.filter (fun c => !(mergeKeys.contains c))).map
    (fun c => if collide.contains c then c ++ "_traffic" else c)
  leftS ++ rightS

/-- Column drop. -/
def dropCol (name : String) (cols : List String) : List String :=
  cols.filter (fun c => c ≠ name)

/-- Column rename preserving position. -/
def renameCol (old new : String) (cols : List String) : List String :=
  cols.map (fun c => if c = old then new else c)

/-- Character-list loop removing every non-overlapping occurrence of a
piece, left to right; the fuel argument only bounds recursion depth and
is always supplied as the text length, enough for every step. -/
def removeAllGo (sep : List Char) : Nat → List Char → List Char
  | 0, _ => []
  | _, [] => []
  | Nat.succ f, x :: xs =>
    if sep.isPrefixOf (x :: xs) && !sep.isEmpty then
      removeAllGo sep f ((x :: xs).drop sep.length)
    else x :: removeAllGo sep f xs

/-- String with every occurrence of a piece removed, the effect of
Python str.replace(piece, empty string). -/
def removeAll (piece s : String) : String :=
  ⟨removeAllGo piece.toList s.toList.length s.toList⟩

/-- Suffix test on character lists. -/
def endsWithL (suffix s : String) : Bool :=
  suffix.toList.reverse.isPrefixOf s.toList.reverse

/-- Character-list substring loop. -/
def hasSubL (sep : List Char) : List Char → Bool
  | [] => sep.isEmpty
  | x :: xs => sep.isPrefixOf (x :: xs) || hasSubL sep xs

/-- Substring test, Python in on strings. -/
def hasSub (piece s : String) : Bool := hasSubL piece.toList s.toList

/-- One pass of the merge script's generic duplicate-suffix loop for a
given suffix: for each column carrying the suffix (snapshot taken
before the pass), if the twin column with the other suffix is still
present, copy the weather variant to the base name when the column
mentions weather, then drop both suffixed columns. -/
def sufLoopOne (suffix other : String) (cols : List String) : List String :=
  let snapshot := cols.filter (fun c => endsWithL suffix c)
  snapshot.foldl
    (fun cs col =>
      let base := removeAll suffix col
      let otherCol := base ++ other
      if cs.contains otherCol then
        let cs1 := if hasSub "weather" col then
            (if cs.contains base then cs else cs ++ [base]) else cs
        cs1.filter (fun c => c ≠ col && c ≠ otherCol)
      else cs)
    cols

/-- Both passes of the generic duplicate-suffix loop. -/
def sufLoop (cols : List String) : List String :=
  sufLoopOne "_traffic" "_weather" (sufLoopOne "_weather" "_traffic" cols)

/-- Weather-only column names the final selection looks for. -/
def weatherUnique : List String :=
  ["season", "temperature_c", "humidity", "rain_mm",
   "wind_speed_kmh", "weather_condition", "air_pressure_hpa"]

/-- Traffic-only column names the final selection looks for. -/
def trafficUnique : List String :=
  ["area", "vehicle_count", "avg_speed_kmh",
   "accident_count", "congestion_level", "road_condition"]

/-- Final column selection of the merge script: date_time, city, the
weather-only columns, the traffic-only columns, then the unified
visibility, each included only when present. -/
def selectFinalCols (cols : List String) : List String :=
  (if cols.contains "date_time" then ["date_time"] else [])
  ++ (if cols.contains "city" then ["city"] else [])
  ++ weatherUnique.filter (fun c => cols.contains c)
  ++ trafficUnique.filter (fun c => cols.contains c)
  ++ (if cols.contains "visibility_m" then ["visibility_m"] else [])

/-- Column bookkeeping of the whole Phase 4 script on the two cleaned
schemas: append the helper hour column to both sides, merge, drop the
helper, resolve the city, date_time and visibility collisions exactly
as the guarded blocks do, run the generic suffix loop, select the final
columns, and drop duplicated names keeping first occurrences. -/
def mergeFinalCols (wcols tcols : List String) : List String :=
  let merged := pandasMergeCols (wcols ++ ["hour"]) (tcols ++ ["hour"])
  let c1 := if merged.contains "hour" then dropCol "hour" merged else merged
  let c2 := if c1.contains "city_traffic" && c1.contains "city_weather" then
      renameCol "city_weather" "city" (dropCol "city_traffic" c1) else c1
  let c3 := if c2.contains "date_time_traffic" && c2.contains "date_time_weather" then
      renameCol "date_time_weather" "date_time" (dropCol "date_time_traffic" c2) else c2
  let c4 := if c3.contains "visibility_m_weather" && c3.contains "visibility_m_traffic" then
      dropCol "visibility_m_traffic" (dropCol "visibility_m_weather"
        (if c3.contains "visibility_m" then c3 else c3 ++ ["visibility_m"])) else c3
  let c5 := sufLoop c4
  dedupF (selectFinalCols c5)

/-- Final merged schema in order, the fixed 16-name list of the spec. -/
def finalSchema : List String :=
  ["date_time", "city", "season", "temperature_c", "humidity", "rain_mm",
   "wind_speed_kmh", "weather_condition", "air_pressure_hpa", "area",
   "vehicle_count", "avg_speed_kmh", "accident_count", "congestion_level",
   "road_condition", "visibility_m"]

/-- State of the modelled process-wide random stream.  The Python code
consumes the global random and numpy.random streams; both are modelled
as one explicitly threaded seeded stream, per the reproducibility
contract of the spec. -/
abbrev RSt := Nat

/-- Linear congruential step standing in for the library stream
transition; any deterministic transition works for the claims, which
concern determinism and dataset shape, not the sampled values. -/
def lcg (s : RSt) : RSt := (s * 1103515245 + 12345) % 2147483648

/-- Draw of a raw 31-bit value. -/
def randN (s : RSt) : Nat × RSt := let s1 := lcg s; (s1, s1)

/-- Draw of random.random: uniform in the unit interval. -/
def randQ (s : RSt) : ℚ × RSt :=
  let p := randN s
  ((p.1 : ℚ) / 2147483648, p.2)

/-- Draw of random.uniform(a, b). -/
def randUni (a b : ℚ) (s : RSt) : ℚ × RSt :=
  let p := randQ s
  (a + (b - a) * p.1, p.2)

/-- Draw of random.randint(a, b), inclusive bounds. -/
def randInt (a b : Nat) (s : RSt) : Nat × RSt :=
  let p := randN s
  (a + p.1 % (b - a + 1), p.2)

/-- Draw of random.choice over a list. -/
def choiceL {α : Type} (l : List α) (d : α) (s : RSt) : α × RSt :=
  let p := randN s
  (l.getD (p.1 % l.length) d, p.2)

/-- Selection by cumulative probability mass. -/
def pickByProb {α : Type} (r : ℚ) : List (α × ℚ) → α → α
  | [], d => d
  | (a, p) :: rest, d => if r < p then a else pickByProb (r - p) rest d

/-- Draw of numpy.random.choice(items, p=probs). -/
def choiceP {α : Type} (items : List (α × ℚ)) (d : α) (s : RSt) : α × RSt :=
  let p := randQ s
  (pickByProb p.1 items d, p.2)

/-- Python round(x, 1), modelled as round half up on rationals; the
half-even tie rule of floats never matters for the claims. -/
def round1 (q : ℚ) : ℚ := ((round (q * 10) : ℤ) : ℚ) / 10

/-- Triple (year, month, day) of the calendar day after a given day. -/
def nextDay (y m d : Nat) : Nat × Nat × Nat :=
  if d < daysInMonth y m then (y, m, d + 1)
  else if m < 12 then (y, m + 1, 1)
  else (y + 1, 1, 1)

/-- Calendar day a number of days after a given day. -/
def addDays : Nat → Nat → Nat → Nat → Nat × Nat × Nat
  | y, m, d, 0 => (y, m, d)
  | y, m, d, Nat.succ k =>
    let p := nextDay y m d
    addDays p.1 p.2.1 p.2.2 k

/-- Timestamp a number of minutes after the generators' start date
2024-01-01 00:00 (datetime arithmetic of timedelta). -/
def startPlusMinutes (total : Nat) : Time :=
  let minute := total % 60
  let hours := total / 60
  let ymd := addDays 2024 1 1 (hours / 24)
  ⟨ymd.1, ymd.2.1, ymd.2.2, hours % 24, minute⟩

/-- Month-to-season dictionary of the weather generator. -/
def seasonsDict (m : Nat) : String :=
  if m = 12 ∨ m = 1 ∨ m = 2 then "Winter"
  else if m = 3 ∨ m = 4 ∨ m = 5 then "Spring"
  else if m = 6 ∨ m = 7 ∨ m = 8 then "Summer"
  else "Autumn"

/-- Two-digit zero padded numeral, strftime style. -/
def pad2 (n : Nat) : String := if n < 10 then "0" ++ toString n else toString n

/-- Timestamp in the standard format YYYY-MM-DD HH:MM. -/
def fmtStd (t : Time) : String :=
  toString t.year ++ "-" ++ pad2 t.month ++ "-" ++ pad2 t.day ++ " "
    ++ pad2 t.hour ++ ":" ++ pad2 t.minute

/-- Timestamp in the alternate format DD/MM/YYYY II:MMap (12-hour clock
with AM or PM). -/
def fmtSlash12 (t : Time) : String :=
  let h12 := if t.hour % 12 = 0 then 12 else t.hour % 12
  let ap := if t.hour < 12 then "AM" else "PM"
  pad2 t.day ++ "/" ++ pad2 t.month ++ "/" ++ toString t.year ++ " "
    ++ pad2 h12 ++ ":" ++ pad2 t.minute ++ ap

/-- Timestamp in the alternate format YYYY-MM-DDTHH:MMZ. -/
def fmtIsoZ (t : Time) : String :=
  toString t.year ++ "-" ++ pad2 t.month ++ "-" ++ pad2 t.day ++ "T"
    ++ pad2 t.hour ++ ":" ++ pad2 t.minute ++ "Z"

/-- Timestamp in the alternate format YYYY/MM/DD HH:MM:SS. -/
def fmtSlashSec (t : Time) : String :=
  toString t.year ++ "/" ++ pad2 t.month ++ "/" ++ pad2 t.day ++ " "
    ++ pad2 t.hour ++ ":" ++ pad2 t.minute ++ ":00"

/-- English month abbreviations for the strftime b directive. -/
def monthAbbr : List String :=
  ["Jan", "Feb", "Mar", "Apr", "May", "Jun",
   "Jul", "Aug", "Sep", "Oct", "Nov", "Dec"]

/-- Timestamp in the alternate format DD-Mon-YYYY HH:MM. -/
def fmtDashAbbr (t : Time) : String :=
  pad2 t.day ++ "-" ++ monthAbbr.getD (t.month - 1) "Jan" ++ "-" ++ toString t.year
    ++ " " ++ pad2 t.hour ++ ":" ++ pad2 t.minute

/-- Area list of the traffic generator; a superset of the cleaner's
valid area list. -/
def londonAreasGen : List String :=
  ["Camden", "Chelsea", "Islington", "Southwark", "Kensington",
   "Westminster", "Greenwich", "Hackney", "Lambeth", "Tower Hamlets",
   "Wandsworth", "Hammersmith", "Brent", "Ealing", "Hounslow"]

/-- One weather record of the generator loop body, index i, threading
the random stream exactly in the draw order of the Python source,
including the short-circuit of conditions guarded by has_issues. -/
def genWeatherRecord (i : Nat) (s0 : RSt) : WRow × RSt :=
  let base_id : ℚ := ((5000 + i + 1 : Nat) : ℚ)
  let p1 := randQ s0
  let has := p1.1 < 3/10
  let s1 := p1.2
  let idp :=
    if has then
      let p := randQ s1
      ((if p.1 < 1/10 then Val.null else Val.num base_id), p.2)
    else (Val.num base_id, s1)
  let s2 := idp.2
  let cur := startPlusMinutes (i * 60)
  let dtp :=
    if has then
      let p := randQ s2
      if p.1 < 1/20 then (Val.null, p.2)
      else if p.1 < 1/10 then
        let c := choiceL ["2099-13-40 25:61", "Unknown", "Invalid Date"] "" p.2
        (Val.str c.1, c.2)
      else if p.1 < 1/5 then
        let c := choiceL [fmtSlash12 cur, fmtIsoZ cur, fmtSlashSec cur] "" p.2
        (Val.str c.1, c.2)
      else (Val.str (fmtStd cur), p.2)
    else (Val.str (fmtStd cur), s2)
  let s3 := dtp.2
  let cityp :=
    if has then
      let p := randQ s3
      ((if p.1 < 1/20 then Val.null else Val.str "London"), p.2)
    else (Val.str "London", s3)
  let s4 := cityp.2
  let month := cur.month
  let seanp :=
    if has then
      let p := randQ s4
      if p.1 < 1/10 then
        let p2 := randQ p.2
        if p2.1 < 1/2 then (Val.null, p2.2)
        else
          let c := choiceL ["Monsoon", "Fall", "Rainy", "Dry"] "" p2.2
          (Val.str c.1, c.2)
      else (Val.str (seasonsDict month), p.2)
    else (Val.str (seasonsDict month), s4)
  let s5 := seanp.2
  let seas := seasonsDict month
  let btp :=
    if seas = "Winter" then randUni (-5) 15 s5
    else if seas = "Summer" then randUni 10 35 s5
    else if seas = "Spring" then randUni 5 25 s5
    else randUni 5 20 s5
  let base_temp := btp.1
  let s6 := btp.2
  let tempp :=
    if has then
      let p := randQ s6
      if p.1 < 1/20 then
        let c := choiceL [(-30 : ℚ), 60, 100] 0 p.2
        (Val.num c.1, c.2)
      else
        let p2 := randQ p.2
        if p2.1 < 1/10 then (Val.null, p2.2)
        else (Val.num (round1 base_temp), p2.2)
    else (Val.num (round1 base_temp), s6)
  let s7 := tempp.2
  let ump :=
    if has then
      let p := randQ s7
      if p.1 < 1/20 then
        let c := choiceL [(-10 : ℚ), 150, 200] 0 p.2
        (Val.num c.1, c.2)
      else
        let p2 := randQ p.2
        if p2.1 < 1/10 then (Val.null, p2.2)
        else if seas = "Winter" ∨ seas = "Autumn" then
          let r := randInt 60 100 p2.2
          (Val.num (r.1 : ℚ), r.2)
        else
          let r := randInt 20 80 p2.2
          (Val.num (r.1 : ℚ), r.2)
    else if seas = "Winter" ∨ seas = "Autumn" then
      let r := randInt 60 100 s7
      (Val.num (r.1 : ℚ), r.2)
    else
      let r := randInt 20 80 s7
      (Val.num (r.1 : ℚ), r.2)
  let s8 := ump.2
  let rainp :=
    if has then
      let p := randQ s8
      if p.1 < 1/20 then
        let u := randUni 120 300 p.2
        (Val.num u.1, u.2)
      else
        let p2 := randQ p.2
        if p2.1 < 1/10 then (Val.null, p2.2)
        else if seas = "Winter" ∨ seas = "Autumn" then
          let u := randUni 0 30 p2.2
          (Val.num (round1 u.1), u.2)
        else
          let u := randUni 0 10 p2.2
          (Val.num (round1 u.1), u.2)
    else if seas = "Winter" ∨ seas = "Autumn" then
      let u := randUni 0 30 s8
      (Val.num (round1 u.1), u.2)
    else
      let u := randUni 0 10 s8
      (Val.num (round1 u.1), u.2)
  let s9 := rainp.2
  let windp :=
    if has then
      let p := randQ s9
      if p.1 < 1/20 then
        let u := randUni 200 500 p.2
        (Val.num u.1, u.2)
      else
        let p2 := randQ p.2
        if p2.1 < 1/10 then (Val.null, p2.2)
        else
          let u := randUni 0 80 p2.2
          (Val.num (round1 u.1), u.2)
    else
      let u := randUni 0 80 s9
      (Val.num (round1 u.1), u.2)
  let s10 := windp.2
  let visp :=
    if has then
      let p := randQ s10
      if p.1 < 1/20 then (Val.num 50000, p.2)
      else
        let p2 := randQ p.2
        if p2.1 < 1/20 then
          let c := choiceL ["Low", "Very Low", "High", "Unknown"] "" p2.2
          (Val.str c.1, c.2)
        else
          let p3 := randQ p2.2
          if p3.1 < 1/10 then (Val.null, p3.2)
          else
            let r := randInt 50 10000 p3.2
            (Val.num (r.1 : ℚ), r.2)
    else
      let r := randInt 50 10000 s10
      (Val.num (r.1 : ℚ), r.2)
  let s11 := visp.2
  let adjProbs : List ℚ :=
    if seas = "Winter" then [2/5, 1/5, 1/10, 1/10, 1/5]
    else if seas = "Summer" then [7/10, 1/10, 1/20, 1/10, 1/20]
    else [1/2, 1/4, 1/10, 1/10, 1/20]
  let condItems := List.zip ["Clear", "Rain", "Fog", "Storm", "Snow"] adjProbs
  let condp :=
    if has then
      let p := randQ s11
      if p.1 < 1/10 then (Val.null, p.2)
      else
        let c := choiceP condItems "" p.2
        (Val.str c.1, c.2)
    else
      let c := choiceP condItems "" s11
      (Val.str c.1, c.2)
  let s12 := condp.2
  let presp :=
    if has then
      let p := randQ s12
      if p.1 < 1/10 then (Val.null, p.2)
      else
        let u := randUni 950 1050 p.2
        (Val.num (round1 u.1), u.2)
    else
      let u := randUni 950 1050 s12
      (Val.num (round1 u.1), u.2)
  ({ weather_id := idp.1
     date_time := dtp.1
     city := cityp.1
     season := seanp.1
     temperature_c := tempp.1
     humidity := ump.1
     rain_mm := rainp.1
     wind_speed_kmh := windp.1
     visibility_m := visp.1
     weather_condition := condp.1
     air_pressure_hpa := presp.1 }, presp.2)

/-- One traffic record of the generator loop body, index i, threading
the random stream in the draw order of the Python source.  The unused
hour_offset local of the source has no draw and is omitted. -/
def genTrafficRecord (i : Nat) (s0 : RSt) : TRow × RSt :=
  let base_id : ℚ := ((9000 + i + 1 : Nat) : ℚ)
  let p1 := randQ s0
  let has := p1.1 < 3/10
  let s1 := p1.2
  let idp :=
    if has then
      let p := randQ s1
      ((if p.1 < 1/10 then Val.null else Val.num base_id), p.2)
    else (Val.num base_id, s1)
  let s2 := idp.2
  let minp := randInt 0 59 s2
  let cur := startPlusMinutes (i * 60 + minp.1)
  let s3 := minp.2
  let dtp :=
    if has then
      let p := randQ s3
      if p.1 < 1/20 then (Val.null, p.2)
      else if p.1 < 1/10 then
        let c := choiceL ["TBD", "2099-00-00 99:99", "Unknown", "N/A"] "" p.2
        (Val.str c.1, c.2)
      else if p.1 < 1/5 then
        let c := choiceL [fmtSlash12 cur, fmtIsoZ cur, fmtDashAbbr cur] "" p.2
        (Val.str c.1, c.2)
      else (Val.str (fmtStd cur), p.2)
    else (Val.str (fmtStd cur), s3)
  let s4 := dtp.2
  let cityp :=
    if has then
      let p := randQ s4
      ((if p.1 < 1/20 then Val.null else Val.str "London"), p.2)
    else (Val.str "London", s4)
  let s5 := cityp.2
  let areap :=
    if has then
      let p := randQ s5
      if p.1 < 1/10 then (Val.null, p.2)
      else
        let c := choiceL londonAreasGen "" p.2
        (Val.str c.1, c.2)
    else
      let c := choiceL londonAreasGen "" s5
      (Val.str c.1, c.2)
  let s6 := areap.2
  let hour := cur.hour
  let rush := (7 ≤ hour ∧ hour ≤ 9) ∨ (17 ≤ hour ∧ hour ≤ 19)
  let bvp := if rush then randInt 1000 5000 s6 else randInt 100 2000 s6
  let base_vehicles := bvp.1
  let s7 := bvp.2
  let vehp :=
    if has then
      let p := randQ s7
      if p.1 < 1/20 then
        let r := randInt 20000 50000 p.2
        (Val.num (r.1 : ℚ), r.2)
      else
        let p2 := randQ p.2
        if p2.1 < 1/10 then (Val.null, p2.2)
        else (Val.num (base_vehicles : ℚ), p2.2)
    else (Val.num (base_vehicles : ℚ), s7)
  let s8 := vehp.2
  let bsp := if base_vehicles > 3000 then randUni 10 40 s8 else randUni 40 120 s8
  let base_speed := bsp.1
  let s9 := bsp.2
  let spdp :=
    if has then
      let p := randQ s9
      if p.1 < 1/20 then
        let u := randUni (-50) (-1) p.2
        (Val.num u.1, u.2)
      else
        let p2 := randQ p.2
        if p2.1 < 1/10 then (Val.null, p2.2)
        else (Val.num (round1 base_speed), p2.2)
    else (Val.num (round1 base_speed), s9)
  let s10 := spdp.2
  let rushAcc : List (ℚ × ℚ) :=
    [(0, 4/5), (1, 1/10), (2, 1/20), (3, 3/100), (4, 1/100), (5, 1/100)]
  let offAcc : List (ℚ × ℚ) :=
    [(0, 19/20), (1, 3/100), (2, 3/200), (3, 1/200)]
  let accp :=
    if has then
      let p := randQ s10
      if p.1 < 1/50 then
        let r := randInt 50 100 p.2
        (Val.num (r.1 : ℚ), r.2)
      else
        let p2 := randQ p.2
        if p2.1 < 1/10 then (Val.null, p2.2)
        else
          let c := choiceP (if rush then rushAcc else offAcc) 0 p2.2
          (Val.num c.1, c.2)
    else
      let c := choiceP (if rush then rushAcc else offAcc) 0 s10
      (Val.num c.1, c.2)
  let s11 := accp.2
  let congRule : String :=
    if base_vehicles > 4000 ∧ base_speed < 30 then "High"
    else if base_vehicles > 2000 ∧ base_speed < 50 then "Medium"
    else "Low"
  let congp :=
    if has then
      let p := randQ s11
      if p.1 < 1/10 then (Val.null, p.2)
      else
        let p2 := randQ p.2
        if p2.1 < 1/20 then
          let c := choiceL ["Very High", "Low-Medium", "Heavy", "Light", "Severe"] "" p2.2
          (Val.str c.1, c.2)
        else (Val.str congRule, p2.2)
    else (Val.str congRule, s11)
  let s12 := congp.2
  let roadp :=
    if has then
      let p := randQ s12
      if p.1 < 1/10 then (Val.null, p.2)
      else
        let c := choiceL ["Dry", "Wet", "Snowy", "Damaged"] "" p.2
        (Val.str c.1, c.2)
    else
      let c := choiceL ["Dry", "Wet", "Snowy", "Damaged"] "" s12
      (Val.str c.1, c.2)
  let s13 := roadp.2
  let visp :=
    if has then
      let p := randQ s13
      if p.1 < 1/20 then
        let c := choiceL [(10 : ℚ), 100000] 0 p.2
        (Val.num c.1, c.2)
      else
        let p2 := randQ p.2
        if p2.1 < 1/10 then (Val.null, p2.2)
        else
          let r := randInt 50 10000 p2.2
          (Val.num (r.1 : ℚ), r.2)
    else
      let r := randInt 50 10000 s13
      (Val.num (r.1 : ℚ), r.2)
  ({ traffic_id := idp.1
     date_time := dtp.1
     city := cityp.1
     area := areap.1
     vehicle_count := vehp.1
     avg_speed_kmh := spdp.1
     accident_count := accp.1
     congestion_level := congp.1
     road_condition := roadp.1
     visibility_m := visp.1 }, visp.2)

/-- Base record loop of the weather generator: one record per index in
order, threading the stream. -/
def genWeatherBase (i : Nat) : Nat → RSt → List WRow × RSt
  | 0, s => ([], s)
  | Nat.succ k, s =>
    let p := genWeatherRecord i s
    let rest := genWeatherBase (i + 1) k p.2
    (p.1 :: rest.1, rest.2)

/-- Base record loop of the traffic generator. -/
def genTrafficBase (i : Nat) : Nat → RSt → List TRow × RSt
  | 0, s => ([], s)
  | Nat.succ k, s =>
    let p := genTrafficRecord i s
    let rest := genTrafficBase (i + 1) k p.2
    (p.1 :: rest.1, rest.2)

/-- Sampling without replacement of k indices from a pool, the model of
random.sample(range(n), k). -/
def sampleK (pool : List Nat) : Nat → RSt → List Nat × RSt
  | 0, s => ([], s)
  | Nat.succ k, s =>
    let p := randN s
    let j := p.1 % pool.length
    let rest := sampleK (pool.eraseIdx j) k p.2
    (pool.getD j 0 :: rest.1, rest.2)

/-- Identifier rewrite pass over the duplicate block: each copied row
independently has a one-half chance of taking an identifier drawn from
the first hundred generated identifiers. -/
def adjustDupsW (ids : List Val) : List WRow → RSt → List WRow × RSt
  | [], s => ([], s)
  | d :: ds, s =>
    let p := randQ s
    let dp :=
      if p.1 < 1/2 then
        let c := choiceL ids Val.null p.2
        ({ d with weather_id := c.1 }, c.2)
      else (d, p.2)
    let rest := adjustDupsW ids ds dp.2
    (dp.1 :: rest.1, rest.2)

/-- Identifier rewrite pass over the traffic duplicate block. -/
def adjustDupsT (ids : List Val) : List TRow → RSt → List TRow × RSt
  | [], s => ([], s)
  | d :: ds, s =>
    let p := randQ s
    let dp :=
      if p.1 < 1/2 then
        let c := choiceL ids Val.null p.2
        ({ d with traffic_id := c.1 }, c.2)
      else (d, p.2)
    let rest := adjustDupsT ids ds dp.2
    (dp.1 :: rest.1, rest.2)

/-- Fixed deterministic permutation modelling the final full-dataset
shuffle df.sample(frac=1, random_state=42); pandas' concrete seeded
permutation is library internals, and the claims need only that it is a
deterministic length-preserving permutation. -/
def shuffle42 {α : Type} (l : List α) : List α := l.rotate (lcg 42 % (l.length + 1))

/-- Row placeholder for out-of-range positional lookups; never reached,
because sampled duplicate indices lie below the base length. -/
def defaultWRow : WRow :=
  ⟨Val.null, Val.null, Val.null, Val.null, Val.null, Val.null,
   Val.null, Val.null, Val.null, Val.null, Val.null⟩

/-- Traffic row placeholder, as defaultWRow. -/
def defaultTRow : TRow :=
  ⟨Val.null, Val.null, Val.null, Val.null, Val.null,
   Val.null, Val.null, Val.null, Val.null, Val.null⟩

/-- Duplicate count int(n * 0.05).  The IEEE double closest to 0.05
exceeds one twentieth by well under one part in ten to the fifteenth,
so for every dataset-scale n the truncated product equals the floor of
n over twenty; the floor, not the ceiling. -/
def numDuplicates (n : Nat) : Nat := n / 20

/-- Whole weather generator: n base records, int(n * 0.05) duplicate
rows sampled by index with the one-half identifier rewrite, then the
fixed seeded shuffle.  The seed argument is the state of the single
modelled random stream at entry. -/
def generate_weather_data (seed : RSt) (n : Nat) : List WRow :=
  let b := genWeatherBase 0 n seed
  let si := sampleK (List.range n) (numDuplicates n) b.2
  let dups0 := si.1.map (fun j => b.1.getD j defaultWRow)
  let first100 := (b.1.map (fun r => r.weather_id)).take 100
  let ad := adjustDupsW first100 dups0 si.2
  shuffle42 (b.1 ++ ad.1)

/-- Whole traffic generator, as generate_weather_data. -/
def generate_traffic_data (seed : RSt) (n : Nat) : List TRow :=
  let b := genTrafficBase 0 n seed
  let si := sampleK (List.range n) (numDuplicates n) b.2
  let dups0 := si.1.map (fun j => b.1.getD j defaultTRow)
  let first100 := (b.1.map (fun r => r.traffic_id)).take 100
  let ad := adjustDupsT first100 dups0 si.2
  shuffle42 (b.1 ++ ad.1)

/-- Test for a timestamp cell. -/
def isTimeB : Val → Bool
  | .time _ => true
  | _ => false

/-- Test for a numeric cell inside a closed interval. -/
def numInB (lo hi : ℚ) : Val → Bool
  | .num q => decide (lo ≤ q) && decide (q ≤ hi)
  | _ => false

/-- Test for a missing cell or a numeric cell inside a closed interval,
the invariant of a non-critical numeric column after cleaning. -/
def optNumIn (lo hi : ℚ) : Val → Bool
  | .null => true
  | .num q => decide (lo ≤ q) && decide (q ≤ hi)
  | _ => false

/-- Test for a string cell with a label from a valid set. -/
def strInB (valid : List String) : Val → Bool
  | .str s => valid.contains s
  | _ => false

/-- Already-clean weather row: the per-field invariants the Phase 2
weather cleaning establishes on its own output. -/
def isCleanWRow (r : WRow) : Bool :=
  isTimeB r.date_time &&
  numInB (-10) 40 r.temperature_c &&
  optNumIn 0 100 r.humidity &&
  optNumIn 0 100 r.rain_mm &&
  optNumIn 0 150 r.wind_speed_kmh &&
  optNumIn 50 20000 r.visibility_m &&
  optNumIn 950 1050 r.air_pressure_hpa &&
  strInB validConditions r.weather_condition &&
  (r.city == Val.str "London") &&
  strInB validSeasons r.season

/-- Already-clean traffic row: the per-field invariants the Phase 2
traffic cleaning establishes on its own output. -/
def isCleanTRow (r : TRow) : Bool :=
  isTimeB r.date_time &&
  strInB validAreas r.area &&
  numInB 0 10000 r.vehicle_count &&
  optNumIn 0 120 r.avg_speed_kmh &&
  optNumIn 0 20 r.accident_count &&
  optNumIn 50 10000 r.visibility_m &&
  strInB validCongestion r.congestion_level &&
  strInB validRoad r.road_condition &&
  (r.city == Val.str "London")

/-- Property that a cell, when numeric, lies inside a closed interval. -/
def valInRange (v : Val) (lo hi : ℚ) : Prop :=
  ∀ q : ℚ, v = Val.num q → lo ≤ q ∧ q ≤ hi

/-- Constant random source for concrete evaluations of the cleaner. -/
def pick0 : Nat → Nat → Nat := fun _ _ => 0

/-- Concrete fully valid raw weather row. -/
def wGoodRow : WRow :=
  { weather_id := Val.num 5001
    date_time := Val.str "2024-01-01 08:00"
    city := Val.str "London"
    season := Val.str "Winter"
    temperature_c := Val.num 10
    humidity := Val.num 50
    rain_mm := Val.num 0
    wind_speed_kmh := Val.num 10
    visibility_m := Val.num 1000
    weather_condition := Val.str "Clear"
    air_pressure_hpa := Val.num 1000 }

/-- Concrete raw weather row identical to wGoodRow except for a missing
city; repair forces both cities to London, making the two rows equal. -/
def wNullCityRow : WRow := { wGoodRow with city := Val.null }

/-- Concrete raw weather row with the out-of-range temperature 100 of
the spec scenario. -/
def wHotRow : WRow := { wGoodRow with temperature_c := Val.num 100 }

/-- Concrete fully valid raw traffic row. -/
def tGoodRow : TRow :=
  { traffic_id := Val.num 9001
    date_time := Val.str "2024-01-01 08:30"
    city := Val.str "London"
    area := Val.str "Camden"
    vehicle_count := Val.num 1500
    avg_speed_kmh := Val.num 45
    accident_count := Val.num 0
    congestion_level := Val.str "Low"
    road_condition := Val.str "Dry"
    visibility_m := Val.num 5000 }

/-- Concrete raw traffic row with the negative speed of the spec
scenario. -/
def tNegSpeedRow : TRow := { tGoodRow with avg_speed_kmh := Val.num (-30) }

/-- Concrete already-clean weather row at hour bucket 2024-01-01 08:00. -/
def cwRow : WRow :=
  { weather_id := Val.num 5001
    date_time := Val.time ⟨2024, 1, 1, 8, 0⟩
    city := Val.str "London"
    season := Val.str "Winter"
    temperature_c := Val.num 10
    humidity := Val.num 50
    rain_mm := Val.num 0
    wind_speed_kmh := Val.num 10
    visibility_m := Val.num 1000
    weather_condition := Val.str "Clear"
    air_pressure_hpa := Val.num 1000 }

/-- Concrete already-clean traffic row in the same hour bucket. -/
def ctRow : TRow :=
  { traffic_id := Val.num 9001
    date_time := Val.time ⟨2024, 1, 1, 8, 30⟩
    city := Val.str "London"
    area := Val.str "Camden"
    vehicle_count := Val.num 1500
    avg_speed_kmh := Val.num 45
    accident_count := Val.num 0
    congestion_level := Val.str "Low"
    road_condition := Val.str "Dry"
    visibility_m := Val.num 5000 }

theorem notna_iff {v : Val} : v.notna = true ↔ v ≠ Val.null := by
  cases v <;> simp [Val.notna]

theorem isTimeB_iff {v : Val} : isTimeB v = true ↔ ∃ t, v = Val.time t := by
  cases v <;> simp [isTimeB]

theorem numInB_iff {lo hi : ℚ} {v : Val} :
    numInB lo hi v = true ↔ ∃ q, v = Val.num q ∧ lo ≤ q ∧ q ≤ hi := by
  cases v <;> simp [numInB, and_assoc]

theorem optNumIn_iff {lo hi : ℚ} {v : Val} :
    optNumIn lo hi v = true ↔ v = Val.null ∨ ∃ q, v = Val.num q ∧ lo ≤ q ∧ q ≤ hi := by
  cases v <;> simp [optNumIn, and_assoc]

theorem strInB_iff {valid : List String} {v : Val} :
    strInB valid v = true ↔ ∃ s, v = Val.str s ∧ s ∈ valid := by
  cases v <;> simp [strInB, List.elem_iff]

theorem mem_of_mem_dedupGo {α : Type} [DecidableEq α] :
    ∀ {l seen : List α} {a : α}, a ∈ dedupGo seen l → a ∈ l := by
  intro l
  induction l with
  | nil => intro seen a h; simp [dedupGo] at h
  | cons x xs ih =>
    intro seen a h
    by_cases hx : x ∈ seen
    · rw [dedupGo, if_pos hx] at h
      exact List.mem_cons_of_mem x (ih h)
    · rw [dedupGo, if_neg hx] at h
      rcases List.mem_cons.mp h with h1 | h2
      · exact h1 ▸ List.mem_cons_self x xs
      · exact List.mem_cons_of_mem x (ih h2)

theorem not_mem_seen_of_mem_dedupGo {α : Type} [DecidableEq α] :
    ∀ {l seen : List α} {a : α}, a ∈ dedupGo seen l → a ∉ seen := by
  intro l
  induction l with
  | nil => intro seen a h; simp [dedupGo] at h
  | cons x xs ih =>
    intro seen a h
    by_cases hx : x ∈ seen
    · rw [dedupGo, if_pos hx] at h
      exact ih h
    · rw [dedupGo, if_neg hx] at h
      rcases List.mem_cons.mp h with h1 | h2
      · exact h1 ▸ hx
      · intro hseen
        exact ih h2 (List.mem_cons_of_mem x hseen)

theorem dedupGo_nodup {α : Type} [DecidableEq α] :
    ∀ (l seen : List α), (dedupGo seen l).Nodup := by
  intro l
  induction l with
  | nil => intro seen; simp [dedupGo]
  | cons x xs ih =>
    intro seen
    by_cases hx : x ∈ seen
    · rw [dedupGo, if_pos hx]
      exact ih seen
    · rw [dedupGo, if_neg hx]
      refine List.nodup_cons.mpr ⟨?_, ih (x :: seen)⟩
      intro hmem
      exact not_mem_seen_of_mem_dedupGo hmem (List.mem_cons_self x seen)

theorem dedupGo_eq_self {α : Type} [DecidableEq α] :
    ∀ {l seen : List α}, l.Nodup → (∀ a ∈ l, a ∉ seen) → dedupGo seen l = l := by
  intro l
  induction l with
  | nil => intro seen _ _; rfl
  | cons x xs ih =>
    intro seen h hseen
    have hx : x ∉ seen := hseen x (List.mem_cons_self x xs)
    rw [dedupGo, if_neg hx]
    congr 1
    apply ih (List.nodup_cons.mp h).2
    intro a ha
    intro hmem
    rcases List.mem_cons.mp hmem with h1 | h2
    · exact (List.nodup_cons.mp h).1 (h1 ▸ ha)
    · exact hseen a (List.mem_cons_of_mem x ha) h2

theorem dedupF_eq_self {α : Type} [DecidableEq α] {l : List α} (h : l.Nodup) :
    dedupF l = l :=
  dedupGo_eq_self h (by simp)

theorem mem_of_mem_dedupF {α : Type} [DecidableEq α] {l : List α} {a : α}
    (h : a ∈ dedupF l) : a ∈ l :=
  mem_of_mem_dedupGo h

theorem dedupF_nodup {α : Type} [DecidableEq α] (l : List α) : (dedupF l).Nodup :=
  dedupGo_nodup l []

theorem toNumV_cases (v : Val) : toNumV v = Val.null ∨ ∃ q, toNumV v = Val.num q := by
  cases v with
  | num q => exact Or.inr ⟨q, rfl⟩
  | null => exact Or.inl rfl
  | time t => exact Or.inl rfl
  | str s =>
    simp only [toNumV]
    cases parseNum s with
    | none => exact Or.inl rfl
    | some q => exact Or.inr ⟨q, rfl⟩

theorem fixNum_num_range {lo hi : ℚ} (hlh : lo ≤ hi) {v : Val} {q : ℚ}
    (h : fixNum lo hi v = Val.num q) : lo ≤ q ∧ q ≤ hi := by
  unfold fixNum at h
  rcases toNumV_cases v with hc | ⟨q0, hc⟩ <;> rw [hc] at h
  · simp [clipV] at h
  · simp only [clipV, Val.num.injEq] at h
    subst h
    exact ⟨le_max_left _ _, max_le hlh (min_le_left _ _)⟩

theorem fixNum_id_of_inRange {lo hi q : ℚ} (h1 : lo ≤ q) (h2 : q ≤ hi) :
    fixNum lo hi (Val.num q) = Val.num q := by
  simp [fixNum, toNumV, clipV, min_eq_right h2, max_eq_right h1]

theorem fixNum_null {lo hi : ℚ} : fixNum lo hi Val.null = Val.null := rfl

theorem cleanCat_id_of_valid {valid : List String} {k : Nat} {s : String}
    (h : valid.contains s = true) : cleanCat valid k (Val.str s) = Val.str s := by
  simp only [cleanCat]
  rw [if_pos h]

theorem cleanCat_always_str {valid : List String} (hne : valid ≠ []) (k : Nat) (v : Val) :
    ∃ s, cleanCat valid k v = Val.str s ∧ s ∈ valid := by
  have hlen : 0 < valid.length := List.length_pos.mpr hne
  have hidx : k % valid.length < valid.length := Nat.mod_lt _ hlen
  have hget : valid.getD (k % valid.length) "" ∈ valid := by
    rw [List.getD_eq_getElem valid "" hidx]
    exact List.getElem_mem hidx
  cases v with
  | str s =>
    by_cases hs : valid.contains s = true
    · exact ⟨s, cleanCat_id_of_valid hs, List.elem_iff.mp hs⟩
    · refine ⟨valid.getD (k % valid.length) "", ?_, hget⟩
      simp only [cleanCat]
      rw [if_neg hs]
  | null => exact ⟨_, rfl, hget⟩
  | num q => exact ⟨_, rfl, hget⟩
  | time t => exact ⟨_, rfl, hget⟩

theorem fixSeason_id_of_valid {d : Val} {s : String}
    (h : validSeasons.contains s = true) : fixSeason d (Val.str s) = Val.str s := by
  simp only [fixSeason]
  rw [if_pos h]

theorem seasonOfMonth_mem (m : Nat) : seasonOfMonth m ∈ validSeasons := by
  unfold seasonOfMonth
  split
  · decide
  · split
    · decide
    · split <;> decide

theorem parseDateVal_cases (v : Val) :
    parseDateVal v = Val.null ∨ ∃ t, parseDateVal v = Val.time t := by
  cases v with
  | str s =>
    simp only [parseDateVal]
    cases parseTS s with
    | none => exact Or.inl rfl
    | some t => exact Or.inr ⟨t, rfl⟩
  | time t => exact Or.inr ⟨t, rfl⟩
  | null => exact Or.inl rfl
  | num q => exact Or.inl rfl

theorem mem_cleanRowsW {pick : Nat → Nat → Nat} {r : WRow} :
    ∀ {rs : List WRow} {i : Nat}, r ∈ cleanRowsW pick i rs →
      ∃ k r0, r0 ∈ rs ∧ r = cleanRowW (pick k) r0 := by
  intro rs
  induction rs with
  | nil => intro i h; simp [cleanRowsW] at h
  | cons x xs ih =>
    intro i h
    rcases List.mem_cons.mp h with h1 | h2
    · exact ⟨i, x, List.mem_cons_self x xs, h1⟩
    · obtain ⟨k, r0, hm, he⟩ := ih h2
      exact ⟨k, r0, List.mem_cons_of_mem x hm, he⟩

theorem mem_cleanRowsT {pick : Nat → Nat → Nat} {r : TRow} :
    ∀ {rs : List TRow} {i : Nat}, r ∈ cleanRowsT pick i rs →
      ∃ k r0, r0 ∈ rs ∧ r = cleanRowT (pick k) r0 := by
  intro rs
  induction rs with
  | nil => intro i h; simp [cleanRowsT] at h
  | cons x xs ih =>
    intro i h
    rcases List.mem_cons.mp h with h1 | h2
    · exact ⟨i, x, List.mem_cons_self x xs, h1⟩
    · obtain ⟨k, r0, hm, he⟩ := ih h2
      exact ⟨k, r0, List.mem_cons_of_mem x hm, he⟩

theorem cleanRowsW_eq_self {pick : Nat → Nat → Nat} :
    ∀ {rs : List WRow} {i : Nat}, (∀ r ∈ rs, ∀ pv : Nat → Nat, cleanRowW pv r = r) →
      cleanRowsW pick i rs = rs := by
  intro rs
  induction rs with
  | nil => intro i _; rfl
  | cons x xs ih =>
    intro i h
    simp only [cleanRowsW]
    rw [h x (List.mem_cons_self x xs) (pick i), ih (fun r hr => h r (List.mem_cons_of_mem x hr))]

theorem cleanRowsT_eq_self {pick : Nat → Nat → Nat} :
    ∀ {rs : List TRow} {i : Nat}, (∀ r ∈ rs, ∀ pv : Nat → Nat, cleanRowT pv r = r) →
      cleanRowsT pick i rs = rs := by
  intro rs
  induction rs with
  | nil => intro i _; rfl
  | cons x xs ih =>
    intro i h
    simp only [cleanRowsT]
    rw [h x (List.mem_cons_self x xs) (pick i), ih (fun r hr => h r (List.mem_cons_of_mem x hr))]

theorem cleanRowW_eq_self {r : WRow} (h : isCleanWRow r = true) (pv : Nat → Nat) :
    cleanRowW pv r = r := by
  obtain ⟨wid, dt, city, se, te, hu, ra, wi, vi, wc, ap⟩ := r
  simp only [isCleanWRow, Bool.and_eq_true] at h
  obtain ⟨⟨⟨⟨⟨⟨⟨⟨⟨hdt, hte⟩, hhu⟩, hra⟩, hwi⟩, hvi⟩, hap⟩, hwc⟩, hcity⟩, hse⟩ := h
  obtain ⟨t, ht⟩ := isTimeB_iff.mp hdt
  obtain ⟨qte, hqte, hte1, hte2⟩ := numInB_iff.mp hte
  obtain ⟨swc, hswc, hswcm⟩ := strInB_iff.mp hwc
  obtain ⟨sse, hsse, hssem⟩ := strInB_iff.mp hse
  have hcity' : city = Val.str "London" := by
    simpa using hcity
  subst ht hqte hswc hsse hcity'
  simp only [cleanRowW, WRow.mk.injEq, parseDateVal]
  refine ⟨trivial, trivial, trivial, ?_, ?_, ?_, ?_, ?_, ?_, ?_, ?_⟩
  · exact fixSeason_id_of_valid (List.elem_iff.mpr hssem)
  · exact fixNum_id_of_inRange hte1 hte2
  · rcases optNumIn_iff.mp hhu with h0 | ⟨q, hq, h1, h2⟩
    · rw [h0]; rfl
    · rw [hq]; exact fixNum_id_of_inRange h1 h2
  · rcases optNumIn_iff.mp hra with h0 | ⟨q, hq, h1, h2⟩
    · rw [h0]; rfl
    · rw [hq]; exact fixNum_id_of_inRange h1 h2
  · rcases optNumIn_iff.mp hwi with h0 | ⟨q, hq, h1, h2⟩
    · rw [h0]; rfl
    · rw [hq]; exact fixNum_id_of_inRange h1 h2
  · rcases optNumIn_iff.mp hvi with h0 | ⟨q, hq, h1, h2⟩
    · rw [h0]; rfl
    · rw [hq]; exact fixNum_id_of_inRange h1 h2
  · exact cleanCat_id_of_valid (List.elem_iff.mpr hswcm)
  · rcases optNumIn_iff.mp hap with h0 | ⟨q, hq, h1, h2⟩
    · rw [h0]; rfl
    · rw [hq]; exact fixNum_id_of_inRange h1 h2

theorem cleanRowT_eq_self {r : TRow} (h : isCleanTRow r = true) (pv : Nat → Nat) :
    cleanRowT pv r = r := by
  obtain ⟨tid, dt, city, ar, ve, sp, ac, co, ro, vi⟩ := r
  simp only [isCleanTRow, Bool.and_eq_true] at h
  obtain ⟨⟨⟨⟨⟨⟨⟨⟨hdt, har⟩, hve⟩, hsp⟩, hac⟩, hvi⟩, hco⟩, hro⟩, hcity⟩ := h
  obtain ⟨t, ht⟩ := isTimeB_iff.mp hdt
  obtain ⟨sar, hsar, hsarm⟩ := strInB_iff.mp har
  obtain ⟨qve, hqve, hve1, hve2⟩ := numInB_iff.mp hve
  obtain ⟨sco, hsco, hscom⟩ := strInB_iff.mp hco
  obtain ⟨sro, hsro, hsrom⟩ := strInB_iff.mp hro
  have hcity' : city = Val.str "London" := by
    simpa using hcity
  subst ht hsar hqve hsco hsro hcity'
  simp only [cleanRowT, TRow.mk.injEq, parseDateVal]
  refine ⟨trivial, trivial, trivial, ?_, ?_, ?_, ?_, ?_, ?_, ?_⟩
  · exact cleanCat_id_of_valid (List.elem_iff.mpr hsarm)
  · exact fixNum_id_of_inRange hve1 hve2
  · rcases optNumIn_iff.mp hsp with h0 | ⟨q, hq, h1, h2⟩
    · rw [h0]; rfl
    · rw [hq]; exact fixNum_id_of_inRange h1 h2
  · rcases optNumIn_iff.mp hac with h0 | ⟨q, hq, h1, h2⟩
    · rw [h0]; rfl
    · rw [hq]; exact fixNum_id_of_inRange h1 h2
  · exact cleanCat_id_of_valid (List.elem_iff.mpr hscom)
  · exact cleanCat_id_of_valid (List.elem_iff.mpr hsrom)
  · rcases optNumIn_iff.mp hvi with h0 | ⟨q, hq, h1, h2⟩
    · rw [h0]; rfl
    · rw [hq]; exact fixNum_id_of_inRange h1 h2

theorem predW_of_clean {r : WRow} (h : isCleanWRow r = true) : predW r = true := by
  simp only [isCleanWRow, Bool.and_eq_true] at h
  obtain ⟨t, ht⟩ := isTimeB_iff.mp h.1.1.1.1.1.1.1.1.1
  obtain ⟨q, hq, _, _⟩ := numInB_iff.mp h.1.1.1.1.1.1.1.1.2
  simp [predW, ht, hq, Val.notna]

theorem predT_of_clean {r : TRow} (h : isCleanTRow r = true) : predT r = true := by
  simp only [isCleanTRow, Bool.and_eq_true] at h
  obtain ⟨t, ht⟩ := isTimeB_iff.mp h.1.1.1.1.1.1.1.1
  obtain ⟨s, hs, _⟩ := strInB_iff.mp h.1.1.1.1.1.1.1.2
  obtain ⟨q, hq, _, _⟩ := numInB_iff.mp h.1.1.1.1.1.1.2
  simp [predT, ht, hs, hq, Val.notna]

theorem mem_mergeRows {m : MRow} :
    ∀ {ws : List WRow} {ts : List TRow}, m ∈ mergeRows ws ts →
      ∃ w, w ∈ ws ∧ ∃ t, t ∈ ts ∧ tkey t = wkey w ∧ m = mkMerged w t := by
  intro ws
  induction ws with
  | nil => intro ts h; simp [mergeRows] at h
  | cons w ws ih =>
    intro ts h
    rcases List.mem_append.mp h with h1 | h2
    · obtain ⟨t, htm, hte⟩ := List.mem_map.mp h1
      have := List.mem_filter.mp htm
      refine ⟨w, List.mem_cons_self w ws, t, this.1, ?_, hte.symm⟩
      exact of_decide_eq_true this.2
    · obtain ⟨w0, hwm, rest⟩ := ih h2
      exact ⟨w0, List.mem_cons_of_mem w hwm, rest⟩

theorem mergeRows_nil_right : ∀ ws : List WRow, mergeRows ws [] = [] := by
  intro ws
  induction ws with
  | nil => rfl
  | cons w ws ih => simp [mergeRows, ih]

theorem mergeRows_eq_nil_of_disjoint :
    ∀ {ws : List WRow} {ts : List TRow},
      (∀ k ∈ ws.map wkey, k ∉ ts.map tkey) → mergeRows ws ts = [] := by
  intro ws
  induction ws with
  | nil => intro ts _; rfl
  | cons w ws ih =>
    intro ts h
    have hw : wkey w ∉ ts.map tkey := h (wkey w) (by simp)
    have hf : ts.filter (fun t => tkey t = wkey w) = [] := by
      apply List.filter_eq_nil_iff.mpr
      intro t ht
      simp only [decide_eq_true_eq]
      intro he
      exact hw (List.mem_map.mpr ⟨t, ht, he⟩)
    simp only [mergeRows, hf, List.map_nil, List.nil_append]
    exact ih (fun k hk => h k (List.mem_cons_of_mem _ hk))

theorem nodup_countP_le_one {β : Type} [DecidableEq β] {l : List β} (h : l.Nodup)
    (k : β) : l.countP (fun x => x = k) ≤ 1 := by
  induction l with
  | nil => simp
  | cons x xs ih =>
    rw [List.countP_cons]
    have hx := (List.nodup_cons.mp h).1
    have ih2 := ih (List.nodup_cons.mp h).2
    by_cases he : x = k
    · subst he
      have hz : xs.countP (fun y => y = x) = 0 := by
        apply List.countP_eq_zero.mpr
        intro a ha
        simp only [decide_eq_true_eq]
        intro hax
        exact hx (hax ▸ ha)
      simp [hz]
    · simp [he, ih2]

theorem filter_key_length_le_one {ts : List TRow} (h : (ts.map tkey).Nodup)
    (k : Val × Val) : (ts.filter (fun t => tkey t = k)).length ≤ 1 := by
  have e1 : (ts.filter (fun t => tkey t = k)).length
      = ts.countP (fun t => tkey t = k) :=
    (List.countP_eq_length_filter _ _).symm
  have e2 : (ts.map tkey).countP (fun x => x = k)
      = ts.countP (fun t => tkey t = k) := by
    rw [List.countP_map]
    rfl
  rw [e1, ← e2]
  exact nodup_countP_le_one h k

theorem filter_key_eq_nil_of_not_mem {ts : List TRow} {k : Val × Val}
    (h : k ∉ ts.map tkey) : ts.filter (fun t => tkey t = k) = [] := by
  apply List.filter_eq_nil_iff.mpr
  intro t ht
  simp only [decide_eq_true_eq]
  intro he
  exact h (List.mem_map.mpr ⟨t, ht, he⟩)

theorem mergeRows_length_le {ws : List WRow} {ts : List TRow}
    (hw : (ws.map wkey).Nodup) (ht : (ts.map tkey).Nodup) :
    (mergeRows ws ts).length ≤ commonKeyCount ws ts := by
  induction ws with
  | nil => simp [mergeRows, commonKeyCount, dedupF]
  | cons w ws ih =>
    have hw2 : (wkey w :: ws.map wkey).Nodup := by rw [List.map_cons] at hw; exact hw
    have hw' : (ws.map wkey).Nodup := (List.nodup_cons.mp hw2).2
    have hnm : wkey w ∉ ws.map wkey := (List.nodup_cons.mp hw2).1
    have e1 : dedupF ((w :: ws).map wkey) = wkey w :: ws.map wkey := by
      rw [dedupF_eq_self hw, List.map_cons]
    have e2 : commonKeyCount (w :: ws) ts
        = ((wkey w :: ws.map wkey).filter (fun k => k ∈ ts.map tkey)).length := by
      unfold commonKeyCount
      rw [e1]
    have e3 : commonKeyCount ws ts
        = ((ws.map wkey).filter (fun k => k ∈ ts.map tkey)).length := by
      unfold commonKeyCount
      rw [dedupF_eq_self hw']
    have hlen : (mergeRows (w :: ws) ts).length
        = (ts.filter (fun t => tkey t = wkey w)).length + (mergeRows ws ts).length := by
      simp [mergeRows]
    by_cases hmem : wkey w ∈ ts.map tkey
    · have hf1 : (ts.filter (fun t => tkey t = wkey w)).length ≤ 1 :=
        filter_key_length_le_one ht (wkey w)
      have := ih hw'
      rw [e3] at this
      rw [hlen, e2, List.filter_cons_of_pos (by simpa using hmem), List.length_cons]
      omega
    · have hf0 : ts.filter (fun t => tkey t = wkey w) = [] :=
        filter_key_eq_nil_of_not_mem hmem
      have := ih hw'
      rw [e3] at this
      rw [hlen, e2, List.filter_cons_of_neg (by simpa using hmem), hf0]
      simpa using this

theorem genWeatherBase_length : ∀ (n i : Nat) (s : RSt), ((genWeatherBase i n s).1).length = n := by
  intro n
  induction n with
  | zero => intro i s; rfl
  | succ k ih =>
    intro i s
    simp only [genWeatherBase, List.length_cons]
    rw [ih]

theorem genTrafficBase_length : ∀ (n i : Nat) (s : RSt), ((genTrafficBase i n s).1).length = n := by
  intro n
  induction n with
  | zero => intro i s; rfl
  | succ k ih =>
    intro i s
    simp only [genTrafficBase, List.length_cons]
    rw [ih]

theorem sampleK_length : ∀ (k : Nat) (pool : List Nat) (s : RSt), k ≤ pool.length →
    ((sampleK pool k s).1).length = k := by
  intro k
  induction k with
  | zero => intro pool s _; rfl
  | succ k ih =>
    intro pool s hk
    have hpos : 0 < pool.length := Nat.lt_of_lt_of_le (Nat.succ_pos k) hk
    have hidx : (randN s).1 % pool.length < pool.length := Nat.mod_lt _ hpos
    have herase : (pool.eraseIdx ((randN s).1 % pool.length)).length = pool.length - 1 := by
      rw [List.length_eraseIdx]
      simp [hidx]
    simp only [sampleK, List.length_cons]
    rw [ih _ _ (by omega)]

theorem adjustDupsW_length (ids : List Val) :
    ∀ (ds : List WRow) (s : RSt), ((adjustDupsW ids ds s).1).length = ds.length := by
  intro ds
  induction ds with
  | nil => intro s; rfl
  | cons d ds ih =>
    intro s
    simp only [adjustDupsW, List.length_cons]
    rw [ih]

theorem adjustDupsT_length (ids : List Val) :
    ∀ (ds : List TRow) (s : RSt), ((adjustDupsT ids ds s).1).length = ds.length := by
  intro ds
  induction ds with
  | nil => intro s; rfl
  | cons d ds ih =>
    intro s
    simp only [adjustDupsT, List.length_cons]
    rw [ih]

theorem shuffle42_length {α : Type} (l : List α) : (shuffle42 l).length = l.length :=
  List.length_rotate l _

theorem generate_weather_data_length (seed : RSt) (n : Nat) :
    (generate_weather_data seed n).length = n + n / 20 := by
  unfold generate_weather_data
  rw [shuffle42_length, List.length_append, genWeatherBase_length, adjustDupsW_length,
    List.length_map,
    sampleK_length _ _ _ (by simp [List.length_range, numDuplicates, Nat.div_le_self])]
  rfl

theorem generate_traffic_data_length (seed : RSt) (n : Nat) :
    (generate_traffic_data seed n).length = n + n / 20 := by
  unfold generate_traffic_data
  rw [shuffle42_length, List.length_append, genTrafficBase_length, adjustDupsT_length,
    List.length_map,
    sampleK_length _ _ _ (by simp [List.length_range, numDuplicates, Nat.div_le_self])]
  rfl

/-- C1: for every fixed seed and every pair of generator runs with
identical (domain, N), the two runs produce identical raw datasets; the
generator output for a given domain and N is a deterministic function
of the seed.  The embedding threads the single modelled random stream
explicitly, so the generators are plain functions of (seed, N) with no
other source of variation. -/
theorem c1_generator_determinism :
    ∀ (seed : RSt) (n : Nat) (w1 w2 : List WRow) (t1 t2 : List TRow),
      w1 = generate_weather_data seed n → w2 = generate_weather_data seed n →
      t1 = generate_traffic_data seed n → t2 = generate_traffic_data seed n →
      w1 = w2 ∧ t1 = t2 := by
  intro seed n w1 w2 t1 t2 h1 h2 h3 h4
  subst h1
  subst h2
  subst h3
  subst h4
  exact ⟨rfl, rfl⟩

theorem c1_generator_determinism_witness :
    generate_weather_data 0 1 = generate_weather_data 0 1 ∧
    generate_traffic_data 0 1 = generate_traffic_data 0 1 :=
  c1_generator_determinism 0 1 (generate_weather_data 0 1) (generate_weather_data 0 1)
    (generate_traffic_data 0 1) (generate_traffic_data 0 1) rfl rfl rfl rfl

/-- C5 (amended): for every target record count N and every seed, the
generator output for a domain has exactly N + floor(0.05 N) rows: the N
base records plus int(N * 0.05) injected duplicate rows.  The source
truncates with int(), so the duplicate count is the floor, not the
ceiling, of one twentieth of N. -/
theorem c5_generated_row_count (seed : RSt) (n : Nat) :
    (generate_weather_data seed n).length = n + n / 20 ∧
    (generate_traffic_data seed n).length = n + n / 20 :=
  ⟨generate_weather_data_length seed n, generate_traffic_data_length seed n⟩

/-- C5 counterexample: at N = 10 the claimed count N + ceil(0.05 N)
is 11, but the generator produces 10 + int(0.5) = 10 rows. -/
theorem c5_counterexample :
    ¬ ((generate_weather_data 0 10).length = 10 + (10 + 19) / 20) := by
  rw [generate_weather_data_length]
  decide

/-- C6 (amended): when each (hour bucket, city) key appears at most
once on each side, the merge output row count is at most the number of
distinct keys present in both cleaned inputs; without that uniqueness
the inner join forms per-key cross products and can exceed the bound.
If the key sets are disjoint the output is empty. -/
theorem c6_join_row_bound :
    (∀ (ws : List WRow) (ts : List TRow), (ws.map wkey).Nodup → (ts.map tkey).Nodup →
      (mergeRows ws ts).length ≤ commonKeyCount ws ts) ∧
    (∀ (ws : List WRow) (ts : List TRow),
      (∀ k ∈ ws.map wkey, k ∉ ts.map tkey) → mergeRows ws ts = []) :=
  ⟨fun _ _ hw ht => mergeRows_length_le hw ht,
   fun _ _ h => mergeRows_eq_nil_of_disjoint h⟩

theorem c6_join_row_bound_witness :
    (mergeRows [cwRow] [ctRow]).length ≤ commonKeyCount [cwRow] [ctRow] ∧
    mergeRows [cwRow] [] = [] :=
  ⟨c6_join_row_bound.1 [cwRow] [ctRow] (by decide) (by decide),
   c6_join_row_bound.2 [cwRow] [] (by decide)⟩

/-- C6 counterexample: two weather rows and two traffic rows sharing
one key produce a four-row cross product, above the one distinct common
key the claim allows. -/
theorem c6_counterexample :
    ¬ ((mergeRows [cwRow, cwRow] [ctRow, ctRow]).length ≤
        commonKeyCount [cwRow, cwRow] [ctRow, ctRow]) := by
  decide

/-- C8: if either cleaned input dataset is empty, or the two key sets
do not intersect, the merge returns the valid zero-row dataset; the
join is total and raises nothing. -/
theorem c8_empty_join (ws : List WRow) (ts : List TRow)
    (h : ws = [] ∨ ts = [] ∨ ∀ k ∈ ws.map wkey, k ∉ ts.map tkey) :
    mergeRows ws ts = [] := by
  rcases h with h | h | h
  · subst h; rfl
  · subst h; exact mergeRows_nil_right ws
  · exact mergeRows_eq_nil_of_disjoint h

theorem c8_empty_join_witness :
    mergeRows [] [ctRow] = [] ∧ mergeRows [cwRow] [] = [] :=
  ⟨c8_empty_join [] [ctRow] (Or.inl rfl), c8_empty_join [cwRow] [] (Or.inr (Or.inl rfl))⟩

/-- C2: the merge output column list is exactly the fixed final schema
date_time, city, season, temperature_c, humidity, rain_mm,
wind_speed_kmh, weather_condition, air_pressure_hpa, area,
vehicle_count, avg_speed_kmh, accident_count, congestion_level,
road_condition, visibility_m, in that order with no duplicate names,
and every merged row takes its unified visibility_m from its weather
source row. -/
theorem c2_merge_schema :
    mergeFinalCols weatherCleanCols trafficCleanCols = finalSchema ∧
    finalSchema.Nodup ∧
    (∀ (ws : List WRow) (ts : List TRow) (m : MRow), m ∈ mergeRows ws ts →
      ∃ w, w ∈ ws ∧ ∃ t, t ∈ ts ∧ tkey t = wkey w ∧ m = mkMerged w t ∧
        m.visibility_m = w.visibility_m) := by
  refine ⟨by decide, by decide, ?_⟩
  intro ws ts m hm
  obtain ⟨w, hw, t, ht, hk, he⟩ := mem_mergeRows hm
  subst he
  exact ⟨w, hw, t, ht, hk, rfl, rfl⟩

theorem c2_merge_schema_witness :
    ∃ w, w ∈ [cwRow] ∧ ∃ t, t ∈ [ctRow] ∧ tkey t = wkey w ∧
      mkMerged cwRow ctRow = mkMerged w t ∧
      (mkMerged cwRow ctRow).visibility_m = w.visibility_m :=
  c2_merge_schema.2.2 [cwRow] [ctRow] (mkMerged cwRow ctRow) (by decide)

/-- C3 (amended): every cleaned row has a non-missing value in each
critical field (date_time and temperature_c for weather; date_time,
area and vehicle_count for traffic), and the duplicate-removal step
produces a duplicate-free list of the raw rows it is given; because
that removal runs before the repair steps, repair can make two
surviving rows equal, so the cleaned output itself may contain exact
duplicates. -/
theorem c3_critical_fields_and_dedup :
    (∀ (pick : Nat → Nat → Nat) (rs : List WRow) (r : WRow), r ∈ cleanWeather pick rs →
      r.date_time ≠ Val.null ∧ r.temperature_c ≠ Val.null) ∧
    (∀ (pick : Nat → Nat → Nat) (rs : List TRow) (r : TRow), r ∈ cleanTraffic pick rs →
      r.date_time ≠ Val.null ∧ r.area ≠ Val.null ∧ r.vehicle_count ≠ Val.null) ∧
    (∀ rs : List WRow, (dedupF rs).Nodup) ∧
    (∀ rs : List TRow, (dedupF rs).Nodup) := by
  refine ⟨?_, ?_, fun rs => dedupF_nodup rs, fun rs => dedupF_nodup rs⟩
  · intro pick rs r hr
    unfold cleanWeather at hr
    have h2 := List.of_mem_filter hr
    simp only [predW, Bool.and_eq_true] at h2
    exact ⟨notna_iff.mp h2.1, notna_iff.mp h2.2⟩
  · intro pick rs r hr
    unfold cleanTraffic at hr
    have h2 := List.of_mem_filter hr
    simp only [predT, Bool.and_eq_true] at h2
    exact ⟨notna_iff.mp h2.1.1, notna_iff.mp h2.1.2, notna_iff.mp h2.2⟩

theorem c3_critical_fields_and_dedup_witness :
    ((cleanRowW (pick0 0) wGoodRow).date_time ≠ Val.null ∧
      (cleanRowW (pick0 0) wGoodRow).temperature_c ≠ Val.null) ∧
    ((cleanRowT (pick0 0) tGoodRow).date_time ≠ Val.null ∧
      (cleanRowT (pick0 0) tGoodRow).area ≠ Val.null ∧
      (cleanRowT (pick0 0) tGoodRow).vehicle_count ≠ Val.null) :=
  ⟨c3_critical_fields_and_dedup.1 pick0 [wGoodRow] (cleanRowW (pick0 0) wGoodRow) (by decide),
   c3_critical_fields_and_dedup.2.1 pick0 [tGoodRow] (cleanRowT (pick0 0) tGoodRow) (by decide)⟩

/-- C3 counterexample: two raw weather rows differing only in the city
cell (London versus missing) both survive duplicate removal, and the
repair forces both cities to London, so the cleaned output holds two
exactly equal rows. -/
theorem c3_counterexample :
    ¬ (cleanWeather pick0 [wGoodRow, wNullCityRow]).Nodup := by
  decide

/-- C4: every numeric measurement value in the cleaned output that
parsed as a number lies inclusively within its declared physical
interval; in particular a raw weather temperature of 100 is cleaned to
exactly 40, and a raw traffic average speed of -30 is cleaned to
exactly 0, out-of-range values being clamped to the nearer bound and
never discarded. -/
theorem c4_numeric_clamping :
    (∀ (pick : Nat → Nat → Nat) (rs : List WRow) (r : WRow), r ∈ cleanWeather pick rs →
      valInRange r.temperature_c (-10) 40 ∧ valInRange r.humidity 0 100 ∧
      valInRange r.rain_mm 0 100 ∧ valInRange r.wind_speed_kmh 0 150 ∧
      valInRange r.visibility_m 50 20000 ∧ valInRange r.air_pressure_hpa 950 1050) ∧
    (∀ (pick : Nat → Nat → Nat) (rs : List TRow) (r : TRow), r ∈ cleanTraffic pick rs →
      valInRange r.vehicle_count 0 10000 ∧ valInRange r.avg_speed_kmh 0 120 ∧
      valInRange r.accident_count 0 20 ∧ valInRange r.visibility_m 50 10000) ∧
    (cleanWeather pick0 [wHotRow]).map (fun r => r.temperature_c) = [Val.num 40] ∧
    (cleanTraffic pick0 [tNegSpeedRow]).map (fun r => r.avg_speed_kmh) = [Val.num 0] := by
  refine ⟨?_, ?_, by decide, by decide⟩
  · intro pick rs r hr
    unfold cleanWeather at hr
    obtain ⟨k, r0, _, he⟩ := mem_cleanRowsW (List.mem_of_mem_filter hr)
    subst he
    exact ⟨fun q hq => fixNum_num_range (by norm_num) hq,
      fun q hq => fixNum_num_range (by norm_num) hq,
      fun q hq => fixNum_num_range (by norm_num) hq,
      fun q hq => fixNum_num_range (by norm_num) hq,
      fun q hq => fixNum_num_range (by norm_num) hq,
      fun q hq => fixNum_num_range (by norm_num) hq⟩
  · intro pick rs r hr
    unfold cleanTraffic at hr
    obtain ⟨k, r0, _, he⟩ := mem_cleanRowsT (List.mem_of_mem_filter hr)
    subst he
    exact ⟨fun q hq => fixNum_num_range (by norm_num) hq,
      fun q hq => fixNum_num_range (by norm_num) hq,
      fun q hq => fixNum_num_range (by norm_num) hq,
      fun q hq => fixNum_num_range (by norm_num) hq⟩

theorem c4_numeric_clamping_witness :
    valInRange (cleanRowW (pick0 0) wHotRow).temperature_c (-10) 40 ∧
    valInRange (cleanRowT (pick0 0) tNegSpeedRow).avg_speed_kmh 0 120 :=
  ⟨(c4_numeric_clamping.1 pick0 [wHotRow] (cleanRowW (pick0 0) wHotRow) (by decide)).1,
   (c4_numeric_clamping.2.1 pick0 [tNegSpeedRow]
      (cleanRowT (pick0 0) tNegSpeedRow) (by decide)).2.1⟩

/-- C7: running the cleaner on an already-clean dataset (duplicate-free
rows whose fields all satisfy the cleaner's own output invariants) is a
no-op: no rows are dropped and no value is changed, for any state of
the random source. -/
theorem c7_cleaner_idempotent :
    (∀ (pick : Nat → Nat → Nat) (rs : List WRow), rs.Nodup →
      (∀ r ∈ rs, isCleanWRow r = true) → cleanWeather pick rs = rs) ∧
    (∀ (pick : Nat → Nat → Nat) (rs : List TRow), rs.Nodup →
      (∀ r ∈ rs, isCleanTRow r = true) → cleanTraffic pick rs = rs) := by
  constructor
  · intro pick rs h1 h2
    unfold cleanWeather
    rw [dedupF_eq_self h1,
      cleanRowsW_eq_self (fun r hr pv => cleanRowW_eq_self (h2 r hr) pv)]
    exact List.filter_eq_self.mpr (fun r hr => predW_of_clean (h2 r hr))
  · intro pick rs h1 h2
    unfold cleanTraffic
    rw [dedupF_eq_self h1,
      cleanRowsT_eq_self (fun r hr pv => cleanRowT_eq_self (h2 r hr) pv)]
    exact List.filter_eq_self.mpr (fun r hr => predT_of_clean (h2 r hr))

theorem c7_cleaner_idempotent_witness :
    cleanWeather pick0 [cwRow] = [cwRow] ∧ cleanTraffic pick0 [ctRow] = [ctRow] :=
  ⟨c7_cleaner_idempotent.1 pick0 [cwRow] (by decide) (by decide),
   c7_cleaner_idempotent.2 pick0 [ctRow] (by decide) (by decide)⟩

/-- C9: a traffic row is removed by the cleaner only for an unparsable
or missing timestamp or a non-numeric or missing vehicle count: the
cleaning pipeline equals the same pipeline with the area condition
removed from the critical-field filter, because area canonicalization
(which replaces any value outside the valid list, including missing,
with a randomly chosen valid area) runs first and leaves every row with
a valid area. -/
theorem c9_area_filter_unreachable :
    (∀ (pick : Nat → Nat → Nat) (rs : List TRow),
      cleanTraffic pick rs = cleanTrafficNoAreaCheck pick rs) ∧
    (∀ (pick : Nat → Nat → Nat) (rs : List TRow) (r : TRow), r ∈ cleanTraffic pick rs →
      ∃ a, r.area = Val.str a ∧ a ∈ validAreas) := by
  constructor
  · intro pick rs
    unfold cleanTraffic cleanTrafficNoAreaCheck
    apply List.filter_congr
    intro r hr
    obtain ⟨k, r0, _, he⟩ := mem_cleanRowsT hr
    subst he
    obtain ⟨a, ha, _⟩ := @cleanCat_always_str validAreas (by decide) ((pick k) 0) r0.area
    have hna : (cleanRowT (pick k) r0).area.notna = true := by
      show (cleanCat validAreas ((pick k) 0) r0.area).notna = true
      rw [ha]
      rfl
    simp only [predT, predTNoArea, hna, Bool.and_true, Bool.true_and]
  · intro pick rs r hr
    unfold cleanTraffic at hr
    obtain ⟨k, r0, _, he⟩ := mem_cleanRowsT (List.mem_of_mem_filter hr)
    subst he
    exact @cleanCat_always_str validAreas (by decide) ((pick k) 0) r0.area

theorem c9_area_filter_unreachable_witness :
    cleanTraffic pick0 [tGoodRow] = cleanTrafficNoAreaCheck pick0 [tGoodRow] ∧
    ∃ a, (cleanRowT (pick0 0) tGoodRow).area = Val.str a ∧ a ∈ validAreas :=
  ⟨c9_area_filter_unreachable.1 pick0 [tGoodRow],
   c9_area_filter_unreachable.2 pick0 [tGoodRow] (cleanRowT (pick0 0) tGoodRow) (by decide)⟩

/-- C10: every cleaned weather row has a season that is one of Winter,
Spring, Summer and Autumn: an invalid or missing season is backfilled
from the cleaned timestamp's month, and the rows whose timestamp failed
to parse, the only way season could stay unset, are removed by the
critical-field filter. -/
theorem c10_season_always_valid :
    ∀ (pick : Nat → Nat → Nat) (rs : List WRow) (r : WRow), r ∈ cleanWeather pick rs →
      ∃ s, r.season = Val.str s ∧ s ∈ validSeasons := by
  intro pick rs r hr
  unfold cleanWeather at hr
  have hp := List.of_mem_filter hr
  obtain ⟨k, r0, _, he⟩ := mem_cleanRowsW (List.mem_of_mem_filter hr)
  subst he
  simp only [predW, Bool.and_eq_true] at hp
  have hdt : (cleanRowW (pick k) r0).date_time ≠ Val.null := notna_iff.mp hp.1
  rcases parseDateVal_cases r0.date_time with h0 | ⟨t, ht⟩
  · exact absurd h0 hdt
  · show ∃ s, fixSeason (parseDateVal r0.date_time) r0.season = Val.str s ∧ s ∈ validSeasons
    rw [ht]
    cases hv : r0.season with
    | str s0 =>
      by_cases hs : validSeasons.contains s0 = true
      · exact ⟨s0, fixSeason_id_of_valid hs, List.elem_iff.mp hs⟩
      · refine ⟨seasonOfMonth t.month, ?_, seasonOfMonth_mem _⟩
        simp only [fixSeason]
        rw [if_neg hs]
    | null => exact ⟨seasonOfMonth t.month, rfl, seasonOfMonth_mem _⟩
    | num q => exact ⟨seasonOfMonth t.month, rfl, seasonOfMonth_mem _⟩
    | time t2 => exact ⟨seasonOfMonth t.month, rfl, seasonOfMonth_mem _⟩

theorem c10_season_always_valid_witness :
    ∃ s, (cleanRowW (pick0 0) wGoodRow).season = Val.str s ∧ s ∈ validSeasons :=
  c10_season_always_valid pick0 [wGoodRow] (cleanRowW (pick0 0) wGoodRow) (by decide)
